import Mathlib

/-
  Verification development for jules-scratch/verification/verify_ide.py.

  The script is a straight-line Playwright program: launch a headless
  Chromium, open a page, navigate to file://<abspath of index.html>,
  run five visibility assertions (the last with an explicit timeout of
  10000 ms), take a screenshot, close the browser.

  The embedding models the script as a function from an environment
  (which elements of the page become visible and when, whether the file
  exists, whether the browser launches) and an initial file system to a
  run result: an Except value (ok or the propagated exception), the
  final file system, whether the launched browser process is still
  alive when the with-block body exits, and a trace of the performed
  automation actions in program order.

  Library behaviour embedded from the Playwright sync API semantics:
  an expect(...).to_be_visible(timeout=t) assertion polls until the
  element is visible and raises once t milliseconds elapse; with no
  explicit timeout it uses the configured library default; goto on a
  file:// URL raises when the file does not exist; page.screenshot
  defaults to full_page=False and writes the image at the given path,
  inferring PNG from the .png extension; the sync_playwright context
  manager stops the driver when the with-block exits, also when the
  body raised, tearing down every browser it launched.
-/

deriving instance DecidableEq for Except

namespace VerifyIde

/-- True iff the path is absolute in the POSIX sense: it starts with a
slash. -/
def isAbs (p : String) : Bool :=
  match p.data with
  | [] => false
  | c :: _ => c == '/'

/-- True iff suf is a suffix of s, by characters. -/
def strEndsWith (s suf : String) : Bool :=
  List.isSuffixOf suf.data s.data

/-- A Playwright locator as used by the script: page.get_by_role(role, name=name)
or page.get_by_text(text). -/
inductive Locator where
  | byRole (role : String) (name : String)
  | byText (text : String)
  deriving DecidableEq, Repr

/-- Automation actions recorded in program order. -/
inductive Event where
  | launched
  | pageOpened
  | navigated (url : String)
  | checked (loc : Locator) (timeoutMs : Nat) (ok : Bool)
  | shotWritten (path : String) (fullPage : Bool)
  | closed
  deriving DecidableEq, Repr

/-- Exceptions the script can propagate: browser launch failure, failed
file:// navigation, failed visibility assertion. -/
inductive PwError where
  | launchError
  | navigationError (url : String)
  | assertionError (loc : Locator)
  deriving DecidableEq, Repr

/-- The page under test: for each locator, the time in milliseconds after
navigation at which the element becomes visible, none when it never does. -/
structure Page where
  visibleAt : Locator → Option Nat

/-- The environment of one run: whether chromium.launch succeeds, which
paths exist on disk, the library default assertion timeout in
milliseconds (5000 in Playwright unless reconfigured), the page, and an
abstract content identifier for the pixels the screenshot would have. -/
structure Env where
  launchOk : Bool
  fileExists : String → Bool
  defaultTimeout : Nat
  page : Page
  shotContent : Nat

/-- os.path.abspath for an already-normalized path: an absolute input is
returned unchanged, a relative one is joined to the current working
directory. -/
def abspath (cwd p : String) : String :=
  if isAbs p then p else cwd ++ "/" ++ p

/-- The file:// URL built by the f-string in the script. -/
def fileUrl (p : String) : String := "file://" ++ p

/-- Effective timeout of a visibility assertion: the explicit timeout
argument when passed, the library default otherwise. -/
def effTimeout (env : Env) : Option Nat → Nat
  | some t => t
  | none => env.defaultTimeout

/-- Outcome of expect(locator).to_be_visible(timeout): true iff the element
becomes visible within the effective timeout. -/
def checkVisible (env : Env) (loc : Locator) (t : Option Nat) : Bool :=
  match env.page.visibleAt loc with
  | some d => decide (d ≤ effTimeout env t)
  | none => false

/-- Locator of the first assertion: the main heading. -/
def locTitle : Locator := Locator.byRole "heading" "Secure Scribble IDE"

/-- Locator of the second assertion. -/
def locStatus : Locator := Locator.byText "Test Suite Status"

/-- Locator of the third assertion. -/
def locEditor : Locator := Locator.byText "Protocol Editor"

/-- Locator of the fourth assertion. -/
def locProj : Locator := Locator.byText "Role Projections"

/-- Locator of the fifth assertion: the Failed Tests heading. -/
def locFailed : Locator := Locator.byRole "heading" "Failed Tests"

/-- The five visibility assertions of the script, in source order, each with
its explicit timeout argument (only the fifth passes one: 10000 ms). -/
def ideChecks : List (Locator × Option Nat) :=
  [ (locTitle, none),
    (locStatus, none),
    (locEditor, none),
    (locProj, none),
    (locFailed, some 10000) ]

/-- Run a list of visibility assertions in order: stop at the first failure
with the failing locator, recording one checked event per executed
assertion. -/
def runChecks (env : Env) : List (Locator × Option Nat) → Except Locator Unit × List Event
  | [] => (Except.ok (), [])
  | (loc, t) :: rest =>
    if checkVisible env loc t then
      let r := runChecks env rest
      (r.1, Event.checked loc (effTimeout env t) true :: r.2)
    else
      (Except.error loc, [Event.checked loc (effTimeout env t) false])

/-- The fixed screenshot output path of the script. -/
def shotPath : String := "jules-scratch/verification/verification.png"

/-- Result of one run of the with-block body: the propagated exception (or
ok), the final file system, whether the launched browser process is still
alive when the body exits, and the trace of performed actions. -/
structure RunResult where
  result : Except PwError Unit
  files : String → Option Nat
  browserAlive : Bool
  trace : List Event

/-- The body of the with-block of main, line by line: launch, new_page,
abspath of index.html, goto the file:// URL, the five visibility
assertions, page.screenshot at shotPath with the full_page default of
false, browser.close(). Execution stops at the first raised exception. -/
def mainBody (env : Env) (cwd : String) (files0 : String → Option Nat) : RunResult :=
  if env.launchOk then
    let absolutePath := abspath cwd "index.html"
    let url := fileUrl absolutePath
    if env.fileExists absolutePath then
      match runChecks env ideChecks with
      | (Except.ok _, evs) =>
        { result := Except.ok ()
          files := fun q => if q = shotPath then some env.shotContent else files0 q
          browserAlive := false
          trace := [Event.launched, Event.pageOpened, Event.navigated url] ++ evs
                     ++ [Event.shotWritten shotPath false, Event.closed] }
      | (Except.error loc, evs) =>
        { result := Except.error (PwError.assertionError loc)
          files := files0
          browserAlive := true
          trace := [Event.launched, Event.pageOpened, Event.navigated url] ++ evs }
    else
      { result := Except.error (PwError.navigationError url)
        files := files0
        browserAlive := true
        trace := [Event.launched, Event.pageOpened] }
  else
    { result := Except.error PwError.launchError
      files := files0
      browserAlive := false
      trace := [] }

/-- State of the automation driver after main returns or raises. -/
structure Teardown where
  driverStopped : Bool
  browserAlive : Bool
  deriving DecidableEq, Repr

/-- The python main function: the with sync_playwright() block runs the
body; on exit of the block, on every path, the driver is stopped and the
browsers it launched are torn down, then the body's outcome (ok or the
exception) propagates to the caller. -/
def main (env : Env) (cwd : String) (files0 : String → Option Nat) : RunResult × Teardown :=
  let body := mainBody env cwd files0
  (body, { driverStopped := true, browserAlive := false })

/-- Process exit status: 0 when main returns, nonzero when an exception
propagates out of it. -/
def scriptExit (env : Env) (cwd : String) (files0 : String → Option Nat) : Nat :=
  match (main env cwd files0).1.result with
  | Except.ok _ => 0
  | Except.error _ => 1

/-- All five visibility assertions would pass in this environment. -/
def allChecksPass (env : Env) : Bool :=
  ideChecks.all fun pr => checkVisible env pr.1 pr.2

/-- Recognizer for screenshot events in a trace. -/
def isShot : Event → Bool
  | Event.shotWritten _ _ => true
  | _ => false

/-- Image format page.screenshot uses for a path: inferred from the
extension, PNG by default. -/
def screenshotFormat (p : String) : String :=
  if strEndsWith p ".png" then "png"
  else if strEndsWith p ".jpg" then "jpeg"
  else if strEndsWith p ".jpeg" then "jpeg"
  else "png"

/-- A page on which every element is visible immediately. -/
def pageAll : Page := ⟨fun _ => some 0⟩

/-- An environment in which every step of the script succeeds. -/
def envAll : Env :=
  { launchOk := true
    fileExists := fun _ => true
    defaultTimeout := 5000
    page := pageAll
    shotContent := 1 }

/-- Like envAll but the screenshot pixels differ. -/
def envAll2 : Env := { envAll with shotContent := 2 }

/-- A page lacking the Test Suite Status text. -/
def pageNoStatus : Page :=
  ⟨fun loc => if loc = locStatus then none else some 0⟩

/-- An environment in which the second visibility assertion fails. -/
def envNoStatus : Env := { envAll with page := pageNoStatus }

/-- A page on which the Failed Tests heading only becomes visible after
20000 ms, past the 10000 ms explicit timeout. -/
def pageLate : Page :=
  ⟨fun loc => if loc = locFailed then some 20000 else some 0⟩

/-- An environment in which only the bounded wait on the Failed Tests
heading times out. -/
def envLate : Env := { envAll with page := pageLate }

/-- An environment in which the browser fails to launch. -/
def envNoLaunch : Env := { envAll with launchOk := false }

/-- An environment in which index.html is missing. -/
def envNoFile : Env := { envAll with fileExists := fun _ => false }

/-- An empty initial file system. -/
def filesEmpty : String → Option Nat := fun _ => none

/-- An initial file system that already holds a stale screenshot at the
output path. -/
def filesPre : String → Option Nat :=
  fun q => if q = shotPath then some 99 else none

/-- The body returns ok exactly when the launch, the navigation and all
five visibility assertions succeed. -/
theorem mainBody_ok_iff (env : Env) (cwd : String) (files0 : String → Option Nat) :
    (mainBody env cwd files0).result = Except.ok () ↔
      env.launchOk = true ∧ env.fileExists (abspath cwd "index.html") = true ∧
        allChecksPass env = true := by
  cases hl : env.launchOk with
  | false => simp [mainBody, hl]
  | true =>
    cases hf : env.fileExists (abspath cwd "index.html") with
    | false => simp [mainBody, hl, hf]
    | true =>
      cases h1 : checkVisible env locTitle none <;>
        cases h2 : checkVisible env locStatus none <;>
        cases h3 : checkVisible env locEditor none <;>
        cases h4 : checkVisible env locProj none <;>
        cases h5 : checkVisible env locFailed (some 10000) <;>
        simp [mainBody, hl, hf, runChecks, ideChecks, allChecksPass,
          h1, h2, h3, h4, h5]

/-- Explicit value of a fully successful run of the body. -/
theorem mainBody_success_eq (env : Env) (cwd : String) (files0 : String → Option Nat)
    (hl : env.launchOk = true)
    (hf : env.fileExists (abspath cwd "index.html") = true)
    (hp : allChecksPass env = true) :
    mainBody env cwd files0 =
      { result := Except.ok ()
        files := fun q => if q = shotPath then some env.shotContent else files0 q
        browserAlive := false
        trace := [Event.launched, Event.pageOpened,
          Event.navigated (fileUrl (abspath cwd "index.html")),
          Event.checked locTitle env.defaultTimeout true,
          Event.checked locStatus env.defaultTimeout true,
          Event.checked locEditor env.defaultTimeout true,
          Event.checked locProj env.defaultTimeout true,
          Event.checked locFailed 10000 true,
          Event.shotWritten shotPath false, Event.closed] } := by
  have h := hp
  simp only [allChecksPass, ideChecks, List.all_cons, List.all_nil,
    Bool.and_eq_true, Bool.and_true] at h
  obtain ⟨h1, h2, h3, h4, h5⟩ := h
  simp [mainBody, hl, hf, runChecks, ideChecks, h1, h2, h3, h4, h5, effTimeout]

/-- A run reaching the assertions with at least one of them failing aborts
with an assertion error, leaves the file system untouched, leaves the
browser process alive at the end of the body, and records no screenshot. -/
theorem mainBody_failure_eq (env : Env) (cwd : String) (files0 : String → Option Nat)
    (hl : env.launchOk = true)
    (hf : env.fileExists (abspath cwd "index.html") = true)
    (hp : allChecksPass env = false) :
    (∃ loc, (mainBody env cwd files0).result =
      Except.error (PwError.assertionError loc)) ∧
    (mainBody env cwd files0).files = files0 ∧
    (mainBody env cwd files0).browserAlive = true ∧
    ∀ p fp, Event.shotWritten p fp ∉ (mainBody env cwd files0).trace := by
  cases h1 : checkVisible env locTitle none <;>
    cases h2 : checkVisible env locStatus none <;>
    cases h3 : checkVisible env locEditor none <;>
    cases h4 : checkVisible env locProj none <;>
    cases h5 : checkVisible env locFailed (some 10000) <;>
    simp_all [mainBody, hl, hf, runChecks, ideChecks, allChecksPass, effTimeout]

/-- C1: if any of the five visibility assertions fails on a run that
reaches them, execution aborts with a propagated assertion error, the file
system is left untouched and no screenshot event occurs; conversely a
screenshot event occurs only on runs where all five assertions succeeded,
and there it sits after the five successful checked events. -/
theorem screenshot_only_after_assertions (env : Env) (cwd : String)
    (files0 : String → Option Nat) :
    (env.launchOk = true → env.fileExists (abspath cwd "index.html") = true →
      allChecksPass env = false →
      (∃ loc, (mainBody env cwd files0).result =
        Except.error (PwError.assertionError loc)) ∧
      (mainBody env cwd files0).files = files0 ∧
      ∀ p fp, Event.shotWritten p fp ∉ (mainBody env cwd files0).trace) ∧
    (∀ p fp, Event.shotWritten p fp ∈ (mainBody env cwd files0).trace →
      allChecksPass env = true ∧
      (mainBody env cwd files0).trace =
        [Event.launched, Event.pageOpened,
         Event.navigated (fileUrl (abspath cwd "index.html")),
         Event.checked locTitle env.defaultTimeout true,
         Event.checked locStatus env.defaultTimeout true,
         Event.checked locEditor env.defaultTimeout true,
         Event.checked locProj env.defaultTimeout true,
         Event.checked locFailed 10000 true,
         Event.shotWritten shotPath false, Event.closed]) := by
  constructor
  · intro hl hf hp
    obtain ⟨he, hfi, _, hsh⟩ := mainBody_failure_eq env cwd files0 hl hf hp
    exact ⟨he, hfi, hsh⟩
  · intro p fp hmem
    cases hl : env.launchOk with
    | false => simp [mainBody, hl] at hmem
    | true =>
      cases hf : env.fileExists (abspath cwd "index.html") with
      | false => simp [mainBody, hl, hf] at hmem
      | true =>
        cases h1 : checkVisible env locTitle none <;>
          cases h2 : checkVisible env locStatus none <;>
          cases h3 : checkVisible env locEditor none <;>
          cases h4 : checkVisible env locProj none <;>
          cases h5 : checkVisible env locFailed (some 10000) <;>
          simp_all [mainBody, runChecks, ideChecks, allChecksPass, effTimeout]

/-- Witness for C1: with the Test Suite Status text absent the run writes
nothing and the files are unchanged, while the all-visible environment does
satisfy all five checks. -/
theorem screenshot_only_after_assertions_w :
    (mainBody envNoStatus "/w" filesEmpty).files = filesEmpty ∧
    Event.shotWritten shotPath false ∉ (mainBody envNoStatus "/w" filesEmpty).trace ∧
    allChecksPass envAll = true := by
  have h := (screenshot_only_after_assertions envNoStatus "/w" filesEmpty).1
    rfl rfl (by decide)
  have h2 := (screenshot_only_after_assertions envAll "/w" filesEmpty).2
    shotPath false (by decide)
  exact ⟨h.2.1, h.2.2 shotPath false, h2.1⟩

/-- C2: even on a fully successful run the screenshot call does not request
full-page capture; exactly one screenshot event occurs and it carries
fullPage = false, the Playwright default for the omitted full_page
argument, contradicting the source comment announcing a screenshot of the
entire page. -/
theorem screenshot_not_full_page :
    (VerifyIde.main envAll "/w" filesEmpty).1.result = Except.ok () ∧
    ((VerifyIde.main envAll "/w" filesEmpty).1.trace.filter isShot) =
      [Event.shotWritten shotPath false] := by
  decide

/-- C3: the browser close event occurs exactly on full-success runs, and on
those the trace ends with the screenshot followed by close, so a run on
which a visibility assertion raised never reaches the close call. -/
theorem close_follows_assertions (env : Env) (cwd : String)
    (files0 : String → Option Nat) :
    (Event.closed ∈ (mainBody env cwd files0).trace ↔
      (mainBody env cwd files0).result = Except.ok ()) ∧
    ((mainBody env cwd files0).result = Except.ok () →
      (mainBody env cwd files0).trace =
        [Event.launched, Event.pageOpened,
         Event.navigated (fileUrl (abspath cwd "index.html")),
         Event.checked locTitle env.defaultTimeout true,
         Event.checked locStatus env.defaultTimeout true,
         Event.checked locEditor env.defaultTimeout true,
         Event.checked locProj env.defaultTimeout true,
         Event.checked locFailed 10000 true,
         Event.shotWritten shotPath false, Event.closed]) := by
  constructor
  · constructor
    · intro hmem
      cases hl : env.launchOk with
      | false => simp [mainBody, hl] at hmem
      | true =>
        cases hf : env.fileExists (abspath cwd "index.html") with
        | false => simp [mainBody, hl, hf] at hmem
        | true =>
          cases h1 : checkVisible env locTitle none <;>
            cases h2 : checkVisible env locStatus none <;>
            cases h3 : checkVisible env locEditor none <;>
            cases h4 : checkVisible env locProj none <;>
            cases h5 : checkVisible env locFailed (some 10000) <;>
            simp_all [mainBody, runChecks, ideChecks, effTimeout]
    · intro hok
      obtain ⟨hl, hf, hp⟩ := (mainBody_ok_iff env cwd files0).mp hok
      rw [mainBody_success_eq env cwd files0 hl hf hp]
      simp
  · intro hok
    obtain ⟨hl, hf, hp⟩ := (mainBody_ok_iff env cwd files0).mp hok
    rw [mainBody_success_eq env cwd files0 hl hf hp]

/-- Witness for C3: the all-visible run does close the browser, the run
with a missing element never does. -/
theorem close_follows_assertions_w :
    Event.closed ∈ (mainBody envAll "/w" filesEmpty).trace ∧
    Event.closed ∉ (mainBody envNoStatus "/w" filesEmpty).trace := by
  constructor
  · exact (close_follows_assertions envAll "/w" filesEmpty).1.mpr (by decide)
  · intro hmem
    have h := (close_follows_assertions envNoStatus "/w" filesEmpty).1.mp hmem
    exact absurd h (by decide)

/-- C4: the Failed Tests check runs after the four immediately-checked
fragments with an explicit bound of 10000 ms; whenever that heading becomes
visible only after a delay beyond the bound, the run fails at exactly that
assertion, the four earlier checked events having succeeded. -/
theorem failed_tests_bounded_wait (env : Env) (cwd : String)
    (files0 : String → Option Nat) (d : Nat)
    (hl : env.launchOk = true)
    (hf : env.fileExists (abspath cwd "index.html") = true)
    (h1 : checkVisible env locTitle none = true)
    (h2 : checkVisible env locStatus none = true)
    (h3 : checkVisible env locEditor none = true)
    (h4 : checkVisible env locProj none = true)
    (hd : env.page.visibleAt locFailed = some d)
    (hgt : 10000 < d) :
    (mainBody env cwd files0).result =
      Except.error (PwError.assertionError locFailed) ∧
    (mainBody env cwd files0).trace =
      [Event.launched, Event.pageOpened,
       Event.navigated (fileUrl (abspath cwd "index.html")),
       Event.checked locTitle env.defaultTimeout true,
       Event.checked locStatus env.defaultTimeout true,
       Event.checked locEditor env.defaultTimeout true,
       Event.checked locProj env.defaultTimeout true,
       Event.checked locFailed 10000 false] := by
  have h5 : checkVisible env locFailed (some 10000) = false := by
    simp [checkVisible, effTimeout, hd]
    omega
  constructor <;>
    simp [mainBody, hl, hf, runChecks, ideChecks, h1, h2, h3, h4, h5, effTimeout]

/-- Witness for C4: with the Failed Tests heading visible only at 20000 ms,
past the 10000 ms bound, the run fails at that assertion. -/
theorem failed_tests_bounded_wait_w :
    (mainBody envLate "/w" filesEmpty).result =
      Except.error (PwError.assertionError locFailed) := by
  exact (failed_tests_bounded_wait envLate "/w" filesEmpty 20000 rfl rfl
    (by decide) (by decide) (by decide) (by decide) (by decide) (by decide)).1

/-- C5: the only input is the implicit relative name index.html, resolved
against the current working directory to an absolute path; every navigation
event of a run targets its file:// URL, and any run performing a visibility
assertion navigated there first. -/
theorem input_is_cwd_index_html (env : Env) (cwd : String)
    (files0 : String → Option Nat) :
    (isAbs "index.html" = false ∧
      abspath cwd "index.html" = cwd ++ "/" ++ "index.html") ∧
    (∀ url, Event.navigated url ∈ (mainBody env cwd files0).trace →
      url = fileUrl (abspath cwd "index.html")) ∧
    (∀ loc t b, Event.checked loc t b ∈ (mainBody env cwd files0).trace →
      (mainBody env cwd files0).trace.take 3 =
        [Event.launched, Event.pageOpened,
         Event.navigated (fileUrl (abspath cwd "index.html"))]) := by
  have habs : isAbs "index.html" = false := by decide
  refine ⟨⟨habs, by simp [abspath, habs]⟩, ?_, ?_⟩
  · intro url hmem
    cases hl : env.launchOk with
    | false => simp [mainBody, hl] at hmem
    | true =>
      cases hf : env.fileExists (abspath cwd "index.html") with
      | false => simp [mainBody, hl, hf] at hmem
      | true =>
        cases h1 : checkVisible env locTitle none <;>
          cases h2 : checkVisible env locStatus none <;>
          cases h3 : checkVisible env locEditor none <;>
          cases h4 : checkVisible env locProj none <;>
          cases h5 : checkVisible env locFailed (some 10000) <;>
          simp_all [mainBody, runChecks, ideChecks, effTimeout]
  · intro loc t b hmem
    cases hl : env.launchOk with
    | false => simp [mainBody, hl] at hmem
    | true =>
      cases hf : env.fileExists (abspath cwd "index.html") with
      | false => simp [mainBody, hl, hf] at hmem
      | true =>
        cases h1 : checkVisible env locTitle none <;>
          cases h2 : checkVisible env locStatus none <;>
          cases h3 : checkVisible env locEditor none <;>
          cases h4 : checkVisible env locProj none <;>
          cases h5 : checkVisible env locFailed (some 10000) <;>
          simp_all [mainBody, runChecks, ideChecks, effTimeout]

/-- Witness for C5: on the all-visible run the trace starts with launch,
page open, then the navigation to file:// of the resolved path, before the
first assertion. -/
theorem input_is_cwd_index_html_w :
    (mainBody envAll "/w" filesEmpty).trace.take 3 =
      [Event.launched, Event.pageOpened,
       Event.navigated (fileUrl (abspath "/w" "index.html"))] := by
  exact (input_is_cwd_index_html envAll "/w" filesEmpty).2.2
    locTitle envAll.defaultTimeout true (by decide)

/-- C6: a successful run writes exactly one file: a PNG at the fixed
relative path jules-scratch/verification/verification.png, overwriting
whatever was there; every other path is untouched. -/
theorem single_png_output (env : Env) (cwd : String)
    (files0 : String → Option Nat)
    (h : (VerifyIde.main env cwd files0).1.result = Except.ok ()) :
    (VerifyIde.main env cwd files0).1.files shotPath = some env.shotContent ∧
    (∀ q, q ≠ shotPath → (VerifyIde.main env cwd files0).1.files q = files0 q) ∧
    ((VerifyIde.main env cwd files0).1.trace.filter isShot) =
      [Event.shotWritten shotPath false] ∧
    shotPath = "jules-scratch/verification/verification.png" ∧
    screenshotFormat shotPath = "png" := by
  have hb : (VerifyIde.main env cwd files0).1 = mainBody env cwd files0 := rfl
  rw [hb] at h ⊢
  obtain ⟨hl, hf, hp⟩ := (mainBody_ok_iff env cwd files0).mp h
  rw [mainBody_success_eq env cwd files0 hl hf hp]
  refine ⟨by simp, ?_, by simp [isShot, List.filter], rfl, by decide⟩
  intro q hq
  simp [hq]

/-- Witness for C6: a successful run on a file system holding a stale
screenshot overwrites it and leaves another path alone. -/
theorem single_png_output_w :
    (VerifyIde.main envAll "/w" filesPre).1.files shotPath =
      some envAll.shotContent ∧
    (VerifyIde.main envAll "/w" filesPre).1.files "other" = filesPre "other" := by
  have h := single_png_output envAll "/w" filesPre (by decide)
  exact ⟨h.1, h.2.1 "other" (by decide)⟩

/-- C7: no failure is recovered anywhere: the with-wrapper propagates the
body outcome unchanged, the exit status is zero exactly when the launch,
the navigation and all five assertions succeed, and a failed launch, a
missing file or a failed visibility check each exit nonzero with the
corresponding propagated error. -/
theorem failures_propagate (env : Env) (cwd : String)
    (files0 : String → Option Nat) :
    ((VerifyIde.main env cwd files0).1.result = (mainBody env cwd files0).result) ∧
    (scriptExit env cwd files0 = 0 ↔
      env.launchOk = true ∧ env.fileExists (abspath cwd "index.html") = true ∧
        allChecksPass env = true) ∧
    (env.launchOk = false →
      (VerifyIde.main env cwd files0).1.result = Except.error PwError.launchError ∧
      scriptExit env cwd files0 = 1) ∧
    (env.launchOk = true → env.fileExists (abspath cwd "index.html") = false →
      (VerifyIde.main env cwd files0).1.result =
        Except.error (PwError.navigationError (fileUrl (abspath cwd "index.html"))) ∧
      scriptExit env cwd files0 = 1) ∧
    (∀ loc, (mainBody env cwd files0).result =
        Except.error (PwError.assertionError loc) →
      scriptExit env cwd files0 = 1) := by
  refine ⟨rfl, ?_, ?_, ?_, ?_⟩
  · rw [Iff.comm, ← mainBody_ok_iff env cwd files0]
    cases hres : (mainBody env cwd files0).result with
    | ok u => cases u; simp [scriptExit, VerifyIde.main, hres]
    | error e => simp [scriptExit, VerifyIde.main, hres]
  · intro hl
    exact ⟨by simp [VerifyIde.main, mainBody, hl],
      by simp [scriptExit, VerifyIde.main, mainBody, hl]⟩
  · intro hl hf
    exact ⟨by simp [VerifyIde.main, mainBody, hl, hf],
      by simp [scriptExit, VerifyIde.main, mainBody, hl, hf]⟩
  · intro loc hres
    simp [scriptExit, VerifyIde.main, hres]

/-- Witness for C7: concrete exit statuses: zero on the all-visible run,
one on a failed launch, a missing file, and a failed assertion. -/
theorem failures_propagate_w :
    scriptExit envAll "/w" filesEmpty = 0 ∧
    scriptExit envNoLaunch "/w" filesEmpty = 1 ∧
    scriptExit envNoFile "/w" filesEmpty = 1 ∧
    scriptExit envNoStatus "/w" filesEmpty = 1 := by
  refine ⟨?_, ?_, ?_, ?_⟩
  · exact (failures_propagate envAll "/w" filesEmpty).2.1.mpr
      ⟨rfl, rfl, by decide⟩
  · exact ((failures_propagate envNoLaunch "/w" filesEmpty).2.2.1 rfl).2
  · exact ((failures_propagate envNoFile "/w" filesEmpty).2.2.2.1 rfl rfl).2
  · exact (failures_propagate envNoStatus "/w" filesEmpty).2.2.2.2
      locStatus (by decide)

/-- C8: two successive successful runs in the same working directory write
to the same fixed path, the second overwriting the first, and across the
two runs no other path of the initial file system changes. -/
theorem rerun_overwrites (env1 env2 : Env) (cwd : String)
    (files0 : String → Option Nat)
    (h1 : (VerifyIde.main env1 cwd files0).1.result = Except.ok ())
    (h2 : (VerifyIde.main env2 cwd
      ((VerifyIde.main env1 cwd files0).1.files)).1.result = Except.ok ()) :
    ((VerifyIde.main env1 cwd files0).1.files) shotPath = some env1.shotContent ∧
    ((VerifyIde.main env2 cwd
      ((VerifyIde.main env1 cwd files0).1.files)).1.files) shotPath
      = some env2.shotContent ∧
    (∀ q, q ≠ shotPath →
      ((VerifyIde.main env2 cwd
        ((VerifyIde.main env1 cwd files0).1.files)).1.files) q = files0 q) ∧
    Event.shotWritten shotPath false ∈ (VerifyIde.main env1 cwd files0).1.trace ∧
    Event.shotWritten shotPath false ∈
      (VerifyIde.main env2 cwd ((VerifyIde.main env1 cwd files0).1.files)).1.trace := by
  have key : ∀ (env : Env) (fs : String → Option Nat),
      (mainBody env cwd fs).result = Except.ok () →
      (mainBody env cwd fs).files shotPath = some env.shotContent ∧
      (∀ q, q ≠ shotPath → (mainBody env cwd fs).files q = fs q) ∧
      Event.shotWritten shotPath false ∈ (mainBody env cwd fs).trace := by
    intro env fs h
    obtain ⟨hl, hf, hp⟩ := (mainBody_ok_iff env cwd fs).mp h
    rw [mainBody_success_eq env cwd fs hl hf hp]
    refine ⟨by simp, ?_, by simp⟩
    intro q hq
    simp [hq]
  obtain ⟨k1a, k1b, k1c⟩ := key env1 files0 h1
  obtain ⟨k2a, k2b, k2c⟩ :=
    key env2 ((VerifyIde.main env1 cwd files0).1.files) h2
  refine ⟨k1a, k2a, ?_, k1c, k2c⟩
  intro q hq
  have hgoal :
      (mainBody env2 cwd ((VerifyIde.main env1 cwd files0).1.files)).files q
        = files0 q := by
    rw [k2b q hq]
    exact k1b q hq
  exact hgoal

/-- Witness for C8: two successful runs with different pixels, the second
overwriting the first at the fixed output path. -/
theorem rerun_overwrites_w :
    ((VerifyIde.main envAll "/w" filesEmpty).1.files) shotPath =
      some envAll.shotContent ∧
    ((VerifyIde.main envAll2 "/w"
      ((VerifyIde.main envAll "/w" filesEmpty).1.files)).1.files) shotPath =
      some envAll2.shotContent := by
  have h := rerun_overwrites envAll envAll2 "/w" filesEmpty (by decide) (by decide)
  exact ⟨h.1, h.2.1⟩

/-- C9: the fifth assertion passes the explicit timeout argument 10000 ms,
the first four pass none and hence run with the library default timeout;
a check with the explicit bound succeeds exactly when its element becomes
visible within 10000 ms, one with no bound within the default. -/
theorem explicit_and_default_timeouts (env : Env) :
    ideChecks.map Prod.snd = [none, none, none, none, some 10000] ∧
    ideChecks.getLast? = some (locFailed, some 10000) ∧
    effTimeout env (some 10000) = 10000 ∧
    effTimeout env none = env.defaultTimeout ∧
    (checkVisible env locFailed (some 10000) = true ↔
      ∃ d, env.page.visibleAt locFailed = some d ∧ d ≤ 10000) ∧
    (checkVisible env locTitle none = true ↔
      ∃ d, env.page.visibleAt locTitle = some d ∧ d ≤ env.defaultTimeout) := by
  refine ⟨rfl, rfl, rfl, rfl, ?_, ?_⟩ <;>
    · constructor
      · intro h
        cases hv : env.page.visibleAt _ with
        | none => simp [checkVisible, hv] at h
        | some d =>
          refine ⟨d, rfl, ?_⟩
          simpa [checkVisible, hv, effTimeout] using h
      · rintro ⟨d, hv, hle⟩
        simp [checkVisible, hv, effTimeout, hle]

/-- Witness for C9: with every element visible immediately, the bounded
check passes, through the explicit 10000 ms bound. -/
theorem explicit_and_default_timeouts_w :
    checkVisible envAll locFailed (some 10000) = true := by
  exact (explicit_and_default_timeouts envAll).2.2.2.2.1.mpr
    ⟨0, rfl, by decide⟩

/-- C10: on every path, also when an assertion raises and the close call in
the body is skipped, the exit of the with-block stops the driver and tears
the launched browser down, and the body outcome then propagates unchanged
out of main. -/
theorem with_block_teardown (env : Env) (cwd : String)
    (files0 : String → Option Nat) :
    (VerifyIde.main env cwd files0).2.driverStopped = true ∧
    (VerifyIde.main env cwd files0).2.browserAlive = false ∧
    (VerifyIde.main env cwd files0).1.result = (mainBody env cwd files0).result ∧
    (∀ loc, (mainBody env cwd files0).result =
        Except.error (PwError.assertionError loc) →
      Event.closed ∉ (mainBody env cwd files0).trace ∧
      (mainBody env cwd files0).browserAlive = true) := by
  refine ⟨rfl, rfl, rfl, ?_⟩
  intro loc hres
  cases hl : env.launchOk with
  | false => simp [mainBody, hl] at hres
  | true =>
    cases hf : env.fileExists (abspath cwd "index.html") with
    | false => simp [mainBody, hl, hf] at hres
    | true =>
      cases h1 : checkVisible env locTitle none <;>
        cases h2 : checkVisible env locStatus none <;>
        cases h3 : checkVisible env locEditor none <;>
        cases h4 : checkVisible env locProj none <;>
        cases h5 : checkVisible env locFailed (some 10000) <;>
        simp_all [mainBody, runChecks, ideChecks, effTimeout]

/-- Witness for C10: on the run whose second assertion fails the body never
closes the browser and leaves it alive, yet after the with-block exit of
main the browser is down. -/
theorem with_block_teardown_w :
    Event.closed ∉ (mainBody envNoStatus "/w" filesEmpty).trace ∧
    (mainBody envNoStatus "/w" filesEmpty).browserAlive = true ∧
    (VerifyIde.main envNoStatus "/w" filesEmpty).2.browserAlive = false := by
  have h := with_block_teardown envNoStatus "/w" filesEmpty
  have hc := h.2.2.2 locStatus (by decide)
  exact ⟨hc.1, hc.2, h.2.1⟩

end VerifyIde
